import Mathlib

/-!
A shallow embedding of `src/index.ts` of `next-safe-action-query`:
the `SafeActionError` class, the `queryFn` outcome normalizer, the
`retry` policy and the option merge of `useSafeActionQuery`
(lines 15-133 of `src/src/index.ts`).

JavaScript values are modelled explicitly: optional/absent fields are
`Option`, truthiness of an optional string field is present-and-non-empty,
an object field is truthy whenever present.  The callbacks
(`onServerError`, `onValidationErrors`, `onNetworkError`) are modelled by
presence flags plus an event trace recording each invocation in order.
-/

/-- The `type` field of `SafeActionError`: `"server" | "validation" | "network"`. -/
inductive ErrorKind where
  | server
  | validation
  | network
deriving DecidableEq, Repr

/-- A plain JavaScript `Error` object, as far as the code observes it:
only its `message` is read. -/
structure JsError where
  message : String
deriving DecidableEq, Repr

/-- The `validationErrors` tree delivered by next-safe-action:
`{ _errors?: string[], [field]: nested }`.  The top-level `_errors`
list may be absent (the code applies `?? []`). -/
inductive VTree where
  | node (rootErrors : Option (List String)) (fields : List (String × VTree))

/-- Accessor for the top-level `_errors` list of a `validationErrors` tree. -/
def VTree.errorsField : VTree → Option (List String)
  | .node e _ => e

/-- The `details` slot of a `SafeActionError`: absent, the raw
`validationErrors` tree, or the coerced thrown error. -/
inductive Details where
  | absent
  | vtree (t : VTree)
  | thrown (e : JsError)

/-- The `SafeActionError` class (src/index.ts lines 15-24): message,
discriminated `type`, optional `details`. -/
structure SafeActionError where
  message : String
  type : ErrorKind
  details : Details

/-- The resolved action outcome `{ data?, serverError?, validationErrors? }`.
`data : Option α` collapses `null` and "not present", exactly the two cases
the code treats alike (`result?.data === undefined || result?.data === null`).
`serverError : Option String` may be present yet empty. -/
structure ActionOutcome (α : Type) where
  data : Option α
  serverError : Option String
  validationErrors : Option VTree

/-- A value thrown/rejected by the awaited action call, as classified by the
`catch` block: an already-constructed `SafeActionError` (which
`instanceof SafeActionError` detects), some other `Error` ((which
`instanceof Error` detects), or a non-error-shaped value. -/
inductive ThrownValue where
  | safeActionErr (e : SafeActionError)
  | errorShaped (message : String)
  | notErrorShaped

/-- One invocation of the action collaborator: it either resolves (possibly
to `null`/`undefined`, hence the `Option`) or rejects with a thrown value. -/
inductive ActionCall (α : Type) where
  | resolved (result : Option (ActionOutcome α))
  | rejected (v : ThrownValue)

/-- Which of the three optional callbacks the caller supplied. -/
structure Callbacks where
  hasServer : Bool
  hasValidation : Bool
  hasNetwork : Bool

/-- One recorded callback invocation, with its argument. -/
inductive CallbackEvent where
  | onServerError (s : String)
  | onValidationErrors (errs : List String)
  | onNetworkError (e : JsError)

/-- JS truthiness of the optionally-present string `result?.serverError`:
truthy iff present and non-empty. -/
def jsTruthyOptStr : Option String → Bool
  | some s => !(s == "")
  | none => false

/-- The body of the `try` block after `await action(actionInput)` resolved
(src/index.ts lines 77-99): the three precedence-ordered checks.  Returns
the thrown `SafeActionError` or the returned data, together with the
callback invocations performed (in order, each at most once). -/
def tryBody {α : Type} (result : Option (ActionOutcome α)) (cb : Callbacks) :
    Except SafeActionError α × List CallbackEvent :=
  let se := result.bind ActionOutcome.serverError
  if jsTruthyOptStr se then
    let s := se.getD ""
    (Except.error ⟨s, .server, .absent⟩,
     if cb.hasServer then [.onServerError s] else [])
  else
    match result.bind ActionOutcome.validationErrors with
    | some t =>
        let errors := t.errorsField.getD []
        let joined := String.intercalate ", " errors
        let msg := if joined == "" then "Validation failed" else joined
        (Except.error ⟨msg, .validation, .vtree t⟩,
         if cb.hasValidation then [.onValidationErrors errors] else [])
    | none =>
        match result.bind ActionOutcome.data with
        | none => (Except.error ⟨"No data returned from action", .server, .absent⟩, [])
        | some d => (Except.ok d, [])

/-- The full output of one `queryFn` run: its settled result, the callback
trace, and whether the `catch` block's `error instanceof SafeActionError`
re-throw branch (src/index.ts lines 102-104) was exercised. -/
structure NormalizeOutput (α : Type) where
  result : Except SafeActionError α
  events : List CallbackEvent
  rethrowBranch : Bool

/-- The `queryFn` normalizer (src/index.ts lines 73-114).  The `try` wraps
both the awaited call and the classification throws, so a classification
failure is caught by the `catch`, recognized as a `SafeActionError`, and
re-thrown unchanged through the re-throw branch.  A rejection is handled
by the `catch` directly: a `SafeActionError` is re-thrown, anything else
is coerced to an `Error` (default message when not error-shaped),
`onNetworkError` fires, and a network-kind `SafeActionError` is thrown. -/
def queryFn {α : Type} (call : ActionCall α) (cb : Callbacks) : NormalizeOutput α :=
  match call with
  | .resolved res =>
      match tryBody res cb with
      | (Except.ok d, evs) => ⟨Except.ok d, evs, false⟩
      | (Except.error e, evs) => ⟨Except.error e, evs, true⟩
  | .rejected v =>
      match v with
      | .safeActionErr e => ⟨Except.error e, [], true⟩
      | .errorShaped m =>
          let ne : JsError := ⟨m⟩
          ⟨Except.error ⟨"Network error: " ++ ne.message, .network, .thrown ne⟩,
           if cb.hasNetwork then [.onNetworkError ne] else [], false⟩
      | .notErrorShaped =>
          let ne : JsError := ⟨"Unknown error occurred"⟩
          ⟨Except.error ⟨"Network error: " ++ ne.message, .network, .thrown ne⟩,
           if cb.hasNetwork then [.onNetworkError ne] else [], false⟩

/-- The `retry` option (src/index.ts lines 116-127).  Every error thrown by
`queryFn` is a `SafeActionError`, so both `instanceof` guards hold and only
the `type` field decides. -/
def shouldRetry (failureCount : Nat) (error : SafeActionError) : Bool :=
  if error.type = ErrorKind.validation then false
  else if error.type = ErrorKind.server then false
  else decide (failureCount < 3)

/-- A value in the engine-options object handed to `useQuery`: numbers,
booleans, opaquely modelled other values, or the retry policy function. -/
inductive EngineOptVal where
  | natVal (n : Nat)
  | boolVal (b : Bool)
  | strVal (s : String)
  | retryFn (f : Nat → SafeActionError → Bool)

/-- A JavaScript options object as an ordered key/value list; a later entry
for the same key overrides an earlier one (spread semantics). -/
abbrev EngineOpts := List (String × EngineOptVal)

/-- Observing a key of an options object: the last write wins. -/
def lookupLast (o : EngineOpts) (k : String) : Option EngineOptVal :=
  match o with
  | [] => none
  | kv :: tl =>
      match lookupLast tl k with
      | some v => some v
      | none => if kv.1 = k then some kv.2 else none

/-- The engine-option part of the object literal handed to `useQuery`
(src/index.ts lines 116-131): the built-in `retry`, `staleTime: 30 * 1000`
and `throwOnError: false`, followed by `...queryOptions`, whose entries
therefore override the built-ins key by key.  (`queryKey` and `queryFn`
are dedicated fields excluded from `queryOptions` by its type.) -/
def mergedEngineOpts (queryOptions : EngineOpts) : EngineOpts :=
  [("retry", EngineOptVal.retryFn shouldRetry),
   ("staleTime", EngineOptVal.natVal (30 * 1000)),
   ("throwOnError", EngineOptVal.boolVal false)] ++ queryOptions

/-- Concrete success payload used by witnesses, mirroring the spec's
example `{ id: 1, message: "Success!" }`. -/
structure DemoData where
  id : Nat
  message : String
deriving DecidableEq, Repr

/-- A helper for settling lookups over the spread `{...defaults, ...queryOptions}`:
a later segment of the object literal wins key by key. -/
theorem lookupLast_append (a b : EngineOpts) (k : String) :
    lookupLast (a ++ b) k
      = (match lookupLast b k with
         | some v => some v
         | none => lookupLast a k) := by
  induction a with
  | nil => cases h : lookupLast b k <;> simp [h, lookupLast]
  | cons kv tl ih =>
      cases h : lookupLast b k <;>
        simp only [List.cons_append, lookupLast, List.append_eq, ih, h]

/-- C1: a resolved outcome whose `serverError` is a non-empty string `S` is
classified as a server error with message `S` and no details, whatever the
`data` and `validationErrors` fields hold, and `onServerError` (when
supplied) fires exactly once with `S`; in particular an outcome with both
`serverError` and `data` set is a server error, never a success. -/
theorem c1_serverError_precedence {α : Type} (res : Option (ActionOutcome α))
    (cb : Callbacks) (s : String)
    (hs : res.bind ActionOutcome.serverError = some s) (hne : s ≠ "") :
    (queryFn (.resolved res) cb).result
      = Except.error ⟨s, .server, .absent⟩ ∧
    (queryFn (.resolved res) cb).events
      = (if cb.hasServer then [CallbackEvent.onServerError s] else []) := by
  have hb : (s == "") = false := beq_eq_false_iff_ne.mpr hne
  simp [queryFn, tryBody, jsTruthyOptStr, hs, hb]

/-- C1 witness: the outcome `{ data: 7, serverError: "boom" }` with all
callbacks supplied fails as a server error with exactly one
`onServerError("boom")` invocation. -/
theorem c1_witness :
    (queryFn (α := Nat) (.resolved (some ⟨some 7, some "boom", none⟩))
        ⟨true, true, true⟩).result
      = Except.error ⟨"boom", .server, .absent⟩ ∧
    (queryFn (α := Nat) (.resolved (some ⟨some 7, some "boom", none⟩))
        ⟨true, true, true⟩).events
      = [CallbackEvent.onServerError "boom"] := by
  have h := c1_serverError_precedence (α := Nat)
      (some ⟨some 7, some "boom", none⟩) ⟨true, true, true⟩ "boom" rfl (by decide)
  exact ⟨h.1, h.2⟩

/-- C2: the retry policy never retries validation or server errors, retries
a network error exactly while fewer than 3 attempts failed, and in
particular evaluates as the spec's four sample points. -/
theorem c2_retry_policy (n : Nat) (e : SafeActionError) :
    (e.type = .validation → shouldRetry n e = false) ∧
    (e.type = .server → shouldRetry n e = false) ∧
    (e.type = .network → shouldRetry n e = decide (n < 3)) ∧
    shouldRetry 0 ⟨"m", .validation, .absent⟩ = false ∧
    shouldRetry 0 ⟨"m", .server, .absent⟩ = false ∧
    shouldRetry 2 ⟨"m", .network, .absent⟩ = true ∧
    shouldRetry 3 ⟨"m", .network, .absent⟩ = false := by
  refine ⟨?_, ?_, ?_, by decide, by decide, by decide, by decide⟩ <;>
    intro h <;> simp [shouldRetry, h]

/-- C2 witness: the policy at the boundary attempts 2 and 3 of a network
error, via the general theorem. -/
theorem c2_witness :
    shouldRetry 2 ⟨"m", .network, .absent⟩ = true ∧
    shouldRetry 3 ⟨"m", .network, .absent⟩ = false := by
  exact ⟨by simpa using (c2_retry_policy 2 ⟨"m", .network, .absent⟩).2.2.1 rfl,
         by simpa using (c2_retry_policy 3 ⟨"m", .network, .absent⟩).2.2.1 rfl⟩

/-- C3 counterexample: for `validationErrors = { _errors: [""] }` the
top-level list is non-empty, yet the message is `"Validation failed"`
rather than the joined list `""`: the code tests the truthiness of the
joined string, not the emptiness of the list. -/
theorem c3_counterexample :
    (VTree.errorsField (.node (some [""]) [])).getD [] ≠ [] ∧
    (queryFn (α := Nat) (.resolved (some ⟨none, none, some (.node (some [""]) [])⟩))
        ⟨false, false, false⟩).result
      = Except.error ⟨"Validation failed", .validation, .vtree (.node (some [""]) [])⟩ ∧
    "Validation failed"
      ≠ String.intercalate ", " ((VTree.errorsField (.node (some [""]) [])).getD []) := by
  exact ⟨by decide, rfl, by decide⟩

/-- C3 (amended): a resolved outcome with no truthy `serverError` and a
populated `validationErrors` tree `t` fails as a validation error whose
details are exactly `t` and whose message is the top-level `_errors` list
(defaulted to `[]` when absent) joined with `", "` when that joined string
is non-empty, else `"Validation failed"`; `onValidationErrors` (when
supplied) fires exactly once with that list. -/
theorem c3_validation_classification {α : Type} (res : Option (ActionOutcome α))
    (cb : Callbacks) (t : VTree)
    (hs : jsTruthyOptStr (res.bind ActionOutcome.serverError) = false)
    (hv : res.bind ActionOutcome.validationErrors = some t) :
    (queryFn (.resolved res) cb).result
      = Except.error
          ⟨if String.intercalate ", " (t.errorsField.getD []) = ""
              then "Validation failed"
              else String.intercalate ", " (t.errorsField.getD []),
           .validation, .vtree t⟩ ∧
    (queryFn (.resolved res) cb).events
      = (if cb.hasValidation
          then [CallbackEvent.onValidationErrors (t.errorsField.getD [])]
          else []) := by
  by_cases hj : String.intercalate ", " (t.errorsField.getD []) = "" <;>
    simp [queryFn, tryBody, hs, hv, hj, beq_iff_eq]

/-- C3 witness: for `validationErrors = { _errors: ["a", "b"] }` the message
is `"a, b"`, the details are the tree, and `onValidationErrors` fires once
with `["a", "b"]`. -/
theorem c3_witness :
    (queryFn (α := Nat) (.resolved (some ⟨none, none, some (.node (some ["a", "b"]) [])⟩))
        ⟨false, true, false⟩).result
      = Except.error ⟨"a, b", .validation, .vtree (.node (some ["a", "b"]) [])⟩ ∧
    (queryFn (α := Nat) (.resolved (some ⟨none, none, some (.node (some ["a", "b"]) [])⟩))
        ⟨false, true, false⟩).events
      = [CallbackEvent.onValidationErrors ["a", "b"]] := by
  have h := c3_validation_classification (α := Nat)
      (some ⟨none, none, some (.node (some ["a", "b"]) [])⟩) ⟨false, true, false⟩
      (.node (some ["a", "b"]) []) rfl rfl
  exact ⟨h.1.trans (by rfl), h.2.trans (by rfl)⟩

/-- C4: a rejection with an `Error` of message `m` is classified as a
network error with message `"Network error: " ++ m` and the error itself
as details, `onNetworkError` (when supplied) firing exactly once with it;
a rejection with a non-error-shaped value is first coerced to an error
with message `"Unknown error occurred"` and treated the same way. -/
theorem c4_network_classification {α : Type} (cb : Callbacks) (m : String) :
    ((queryFn (α := α) (.rejected (.errorShaped m)) cb).result
        = Except.error ⟨"Network error: " ++ m, .network, .thrown ⟨m⟩⟩ ∧
     (queryFn (α := α) (.rejected (.errorShaped m)) cb).events
        = (if cb.hasNetwork then [CallbackEvent.onNetworkError ⟨m⟩] else [])) ∧
    ((queryFn (α := α) (.rejected .notErrorShaped) cb).result
        = Except.error ⟨"Network error: Unknown error occurred", .network,
            .thrown ⟨"Unknown error occurred"⟩⟩ ∧
     (queryFn (α := α) (.rejected .notErrorShaped) cb).events
        = (if cb.hasNetwork
            then [CallbackEvent.onNetworkError ⟨"Unknown error occurred"⟩]
            else [])) :=
  ⟨⟨rfl, rfl⟩, ⟨rfl, rfl⟩⟩

/-- C5: a resolved outcome with no truthy `serverError`, no
`validationErrors` and an absent (`null` or missing) `data` field fails as
a server error with message `"No data returned from action"`, no details
and no callback invocation, and that error is never retried. -/
theorem c5_missing_data {α : Type} (res : Option (ActionOutcome α)) (cb : Callbacks)
    (hs : jsTruthyOptStr (res.bind ActionOutcome.serverError) = false)
    (hv : res.bind ActionOutcome.validationErrors = none)
    (hd : res.bind ActionOutcome.data = none) :
    (queryFn (.resolved res) cb).result
      = Except.error ⟨"No data returned from action", .server, .absent⟩ ∧
    (queryFn (.resolved res) cb).events = [] ∧
    ∀ (n : Nat) (e : SafeActionError),
      (queryFn (.resolved res) cb).result = Except.error e →
      shouldRetry n e = false := by
  have h1 : (queryFn (.resolved res) cb).result
      = Except.error ⟨"No data returned from action", .server, .absent⟩ := by
    simp [queryFn, tryBody, hs, hv, hd]
  have h2 : (queryFn (.resolved res) cb).events = [] := by
    simp [queryFn, tryBody, hs, hv, hd]
  refine ⟨h1, h2, ?_⟩
  intro n e he
  rw [h1] at he
  injection he with h
  rw [← h]
  simp [shouldRetry]

/-- C5 witness: the outcome `{ data: null }` with all callbacks supplied
fails as the missing-data server error, fires no callback, and attempt 0
is not retried. -/
theorem c5_witness :
    (queryFn (α := Nat) (.resolved (some ⟨none, none, none⟩)) ⟨true, true, true⟩).result
      = Except.error ⟨"No data returned from action", .server, .absent⟩ ∧
    (queryFn (α := Nat) (.resolved (some ⟨none, none, none⟩)) ⟨true, true, true⟩).events
      = [] ∧
    shouldRetry 0 ⟨"No data returned from action", .server, .absent⟩ = false := by
  have h := c5_missing_data (α := Nat) (some ⟨none, none, none⟩) ⟨true, true, true⟩
      rfl rfl rfl
  exact ⟨h.1, h.2.1, h.2.2 0 _ h.1⟩

/-- C6 counterexample: on the resolved outcome `{ serverError: "boom" }`
the classification throw is caught by the `catch` block and the
re-throw-if-already-classified branch IS exercised: the branch is not
unreachable, because the classification throws happen inside the `try`. -/
theorem c6_counterexample :
    (queryFn (α := Nat) (.resolved (some ⟨none, some "boom", none⟩))
        ⟨false, false, false⟩).rethrowBranch = true := rfl

/-- C6 (amended): the re-throw-if-already-classified branch is exercised
exactly when classification fails — every classification failure of a
resolved outcome is caught and passes through it — and it is an identity:
the `SafeActionError` propagates unchanged, with no extra callback; for a
rejection with a non-`SafeActionError` value the branch is not taken, and
a rejection that is already a `SafeActionError` also passes through it. -/
theorem c6_rethrow_reachability {α : Type} (res : Option (ActionOutcome α))
    (cb : Callbacks) (m : String) (e : SafeActionError) :
    ((queryFn (.resolved res) cb).rethrowBranch = true
        ↔ ∃ err, (tryBody res cb).1 = Except.error err) ∧
    (queryFn (.resolved res) cb).result = (tryBody res cb).1 ∧
    (queryFn (.resolved res) cb).events = (tryBody res cb).2 ∧
    (queryFn (α := α) (.rejected (.errorShaped m)) cb).rethrowBranch = false ∧
    (queryFn (α := α) (.rejected .notErrorShaped) cb).rethrowBranch = false ∧
    (queryFn (α := α) (.rejected (.safeActionErr e)) cb).rethrowBranch = true := by
  refine ⟨?_, ?_, ?_, rfl, rfl, rfl⟩ <;>
  · rcases h : tryBody res cb with ⟨r, evs⟩
    cases r <;> simp [queryFn, h]

/-- C7: a resolved outcome with no truthy `serverError`, no
`validationErrors` and a present non-null `data` field `d` succeeds with
exactly `d`, unchanged and unvalidated, and no callback fires. -/
theorem c7_success_passthrough {α : Type} (res : Option (ActionOutcome α))
    (cb : Callbacks) (d : α)
    (hs : jsTruthyOptStr (res.bind ActionOutcome.serverError) = false)
    (hv : res.bind ActionOutcome.validationErrors = none)
    (hd : res.bind ActionOutcome.data = some d) :
    (queryFn (.resolved res) cb).result = Except.ok d ∧
    (queryFn (.resolved res) cb).events = [] := by
  simp [queryFn, tryBody, hs, hv, hd]

/-- C7 witness: the outcome `{ data: { id: 1, message: "Success!" } }` with
all callbacks supplied succeeds with that exact value and fires none. -/
theorem c7_witness :
    (queryFn (α := DemoData)
        (.resolved (some ⟨some ⟨1, "Success!"⟩, none, none⟩)) ⟨true, true, true⟩).result
      = Except.ok ⟨1, "Success!"⟩ ∧
    (queryFn (α := DemoData)
        (.resolved (some ⟨some ⟨1, "Success!"⟩, none, none⟩)) ⟨true, true, true⟩).events
      = [] :=
  c7_success_passthrough (α := DemoData) (some ⟨some ⟨1, "Success!"⟩, none, none⟩)
    ⟨true, true, true⟩ ⟨1, "Success!"⟩ rfl rfl rfl

/-- C8: the options handed to `useQuery` default `staleTime` to 30000 ms
and `throwOnError` to `false`, any caller-supplied value for either key
overrides the default (last write wins), and every other caller-supplied
engine option passes through unchanged. -/
theorem c8_option_defaults (queryOptions : EngineOpts) :
    (lookupLast queryOptions "staleTime" = none →
        lookupLast (mergedEngineOpts queryOptions) "staleTime"
          = some (EngineOptVal.natVal 30000)) ∧
    (lookupLast queryOptions "throwOnError" = none →
        lookupLast (mergedEngineOpts queryOptions) "throwOnError"
          = some (EngineOptVal.boolVal false)) ∧
    ∀ (k : String) (v : EngineOptVal),
      lookupLast queryOptions k = some v →
      lookupLast (mergedEngineOpts queryOptions) k = some v := by
  refine ⟨?_, ?_, ?_⟩
  · intro h
    rw [mergedEngineOpts, lookupLast_append, h]
    exact rfl
  · intro h
    rw [mergedEngineOpts, lookupLast_append, h]
    exact rfl
  · intro k v h
    rw [mergedEngineOpts, lookupLast_append, h]

/-- C8 witness: with caller options `{ staleTime: 5, refetchInterval: 60000 }`
the merged options keep the caller's `staleTime`, pass `refetchInterval`
through, and default `throwOnError` to `false`. -/
theorem c8_witness :
    lookupLast (mergedEngineOpts [("staleTime", EngineOptVal.natVal 5),
        ("refetchInterval", EngineOptVal.natVal 60000)]) "staleTime"
      = some (EngineOptVal.natVal 5) ∧
    lookupLast (mergedEngineOpts [("staleTime", EngineOptVal.natVal 5),
        ("refetchInterval", EngineOptVal.natVal 60000)]) "refetchInterval"
      = some (EngineOptVal.natVal 60000) ∧
    lookupLast (mergedEngineOpts [("staleTime", EngineOptVal.natVal 5),
        ("refetchInterval", EngineOptVal.natVal 60000)]) "throwOnError"
      = some (EngineOptVal.boolVal false) := by
  have h := c8_option_defaults [("staleTime", EngineOptVal.natVal 5),
      ("refetchInterval", EngineOptVal.natVal 60000)]
  exact ⟨h.2.2 "staleTime" _ rfl, h.2.2 "refetchInterval" _ rfl, h.2.1 rfl⟩

/-- C9: an outcome whose `serverError` is the empty string is falsy there,
so it is not classified as a server error and `onServerError` never fires:
classification falls through — with no `validationErrors` it succeeds with
a present `data` and fails as the missing-data server error without one. -/
theorem c9_empty_serverError {α : Type} (o : ActionOutcome α) (cb : Callbacks)
    (h : o.serverError = some "") :
    (∀ d : α, o.validationErrors = none → o.data = some d →
        (queryFn (.resolved (some o)) cb).result = Except.ok d) ∧
    (o.validationErrors = none → o.data = none →
        (queryFn (.resolved (some o)) cb).result
          = Except.error ⟨"No data returned from action", .server, .absent⟩) ∧
    (∀ s : String,
        CallbackEvent.onServerError s ∉ (queryFn (.resolved (some o)) cb).events) := by
  refine ⟨?_, ?_, ?_⟩
  · intro d hv hd
    simp [queryFn, tryBody, jsTruthyOptStr, h, hv, hd]
  · intro hv hd
    simp [queryFn, tryBody, jsTruthyOptStr, h, hv, hd]
  · intro s
    rcases hv : o.validationErrors with _ | t
    · rcases hd : o.data with _ | d <;>
        simp [queryFn, tryBody, jsTruthyOptStr, h, hv, hd]
    · cases hcb : cb.hasValidation <;>
        simp [queryFn, tryBody, jsTruthyOptStr, h, hv, hcb]

/-- C9 witness: `{ serverError: "", data: 5 }` succeeds with 5, and
`{ serverError: "" }` alone fails as the missing-data server error. -/
theorem c9_witness :
    (queryFn (α := Nat) (.resolved (some ⟨some 5, some "", none⟩))
        ⟨true, true, true⟩).result = Except.ok 5 ∧
    (queryFn (α := Nat) (.resolved (some ⟨none, some "", none⟩))
        ⟨true, true, true⟩).result
      = Except.error ⟨"No data returned from action", .server, .absent⟩ :=
  ⟨(c9_empty_serverError (α := Nat) ⟨some 5, some "", none⟩ ⟨true, true, true⟩ rfl).1
      5 rfl rfl,
   (c9_empty_serverError (α := Nat) ⟨none, some "", none⟩ ⟨true, true, true⟩ rfl).2.1
      rfl rfl⟩

/-- C10: an action call that resolves to `null`/`undefined` is handled
null-tolerantly: every check is skipped safely and the run fails as the
missing-data server error, so even this degenerate outcome crosses the
boundary as a `SafeActionError`, with no callback fired. -/
theorem c10_null_outcome {α : Type} (cb : Callbacks) :
    (queryFn (α := α) (.resolved none) cb).result
      = Except.error ⟨"No data returned from action", .server, .absent⟩ ∧
    (queryFn (α := α) (.resolved none) cb).events = [] :=
  ⟨rfl, rfl⟩
